import Mathlib

/-!
# Verification of the tunisie-homes ingestion pipeline core

Shallow embedding of the pipeline logic of the repository
(`data-factory/MIGRATION_GUIDE.md` Python snippets for the Normalizer,
the upsert client and the deal-rating engine, and
`frontend/prisma/SCHEMA_CHANGES.md` SQL for the neighborhood-stats
aggregation), together with theorems settling the spec claims.

Numbers are modelled as rationals (`ℚ`), Python `None`/missing dict keys as
`Option`, Python dicts either as structures with `Option` fields or, where the
claim is about the dict itself, as association lists.
-/

/-! ## Generic helpers -/

/-- Python-style lowering of a character: ASCII `A`-`Z` and the Latin-1
uppercase range `À`-`Þ` (except `×`) map down by 32, everything else
(including Arabic) is unchanged, matching what `str.lower()` does on the
characters that occur in this data. -/
def lowerChar (c : Char) : Char :=
  if 'A' ≤ c ∧ c ≤ 'Z' then Char.ofNat (c.toNat + 32)
  else if 'À' ≤ c ∧ c ≤ 'Þ' ∧ c ≠ '×' then Char.ofNat (c.toNat + 32)
  else c

/-- Embedding of Python `str.lower()` restricted to the alphabets used by the
scraper (ASCII, Latin-1, Arabic). -/
def pyLower (s : String) : String := String.mk (s.data.map lowerChar)

/-- `chPrefix needle hay` is true when `needle` is a prefix of `hay`. -/
def chPrefix : List Char → List Char → Bool
  | [], _ => true
  | _ :: _, [] => false
  | c :: cs, d :: ds => c = d && chPrefix cs ds

/-- `chContains hay needle` is true when `needle` occurs as a contiguous
substring of `hay`; embeds the Python `needle in hay` test on strings. -/
def chContains : List Char → List Char → Bool
  | [], needle => needle.isEmpty
  | hay@(_ :: rest), needle => chPrefix needle hay || chContains rest needle

/-- Python `kw in text` on strings. -/
def containsKw (text kw : String) : Bool := chContains text.data kw.data

/-- One merge step of a Python dict update: a key present in the payload
(`some v`) overwrites, an absent key leaves the stored value. -/
def upd {α : Type} (new old : Option α) : Option α :=
  match new with
  | some v => some v
  | none => old

/-- Round-half-to-even of a rational to an integer, the rounding Python's
`round` applies. -/
def roundHalfEven (q : ℚ) : ℤ :=
  let n := ⌊q⌋
  let f := q - (n : ℚ)
  if f < 1/2 then n
  else if 1/2 < f then n + 1
  else if n % 2 = 0 then n else n + 1

/-- Embedding of Python `round(x, 1)`. -/
def pyRound1 (q : ℚ) : ℚ := ((roundHalfEven (q * 10) : ℤ) : ℚ) / 10

/-! ## Normalizer (`normalizer.py` snippets in `data-factory/MIGRATION_GUIDE.md`) -/

namespace DataNormalizer

/-- `DataNormalizer.PROPERTY_TYPE_MAP`: the ordered keyword → enum table;
Python dicts iterate in insertion order, so a list of pairs is faithful. -/
def PROPERTY_TYPE_MAP : List (String × String) :=
  [("appartement", "APARTMENT"), ("appart", "APARTMENT"), ("studio", "STUDIO"),
   ("s1", "STUDIO"), ("s2", "APARTMENT"), ("s3", "APARTMENT"),
   ("s4", "APARTMENT"), ("s+", "APARTMENT"), ("maison", "HOUSE"),
   ("villa", "VILLA"), ("duplex", "DUPLEX"), ("penthouse", "PENTHOUSE"),
   ("terrain", "LAND"), ("ارض", "LAND"), ("أرض", "LAND"), ("bureau", "OFFICE"),
   ("local commercial", "COMMERCIAL"), ("commercial", "COMMERCIAL"),
   ("ferme", "FARM"), ("مزرعة", "FARM")]

/-- `DataNormalizer._extract_property_type`: first keyword of the table found
(case-insensitively) in the title wins; no match gives `none` (stored NULL). -/
def extract_property_type (title : String) : Option String :=
  let title_lower := pyLower title
  (PROPERTY_TYPE_MAP.find? (fun kv => containsKw title_lower (pyLower kv.1))).map
    (fun kv => kv.2)

/-- `rent_keywords` of `DataNormalizer._extract_listing_type`. -/
def rent_keywords : List String :=
  ["louer", "location", "à louer", "a louer", "للكراء"]

/-- `sale_keywords` of `DataNormalizer._extract_listing_type`. -/
def sale_keywords : List String :=
  ["vendre", "vente", "à vendre", "a vendre", "للبيع"]

/-- `sum(1 for kw in kws if kw in text)`: how many keywords of the set occur
in the text. -/
def keywordScore (kws : List String) (text : String) : Nat :=
  (kws.filter (fun kw => containsKw text kw)).length

/-- The `text` local of `_extract_listing_type`:
`f"{url} {title} {description}".lower()`. -/
def listingText (url title description : String) : String :=
  pyLower (url ++ " " ++ title ++ " " ++ description)

/-- The `rent_score` local of `_extract_listing_type`. -/
def rent_score (url title description : String) : Nat :=
  keywordScore rent_keywords (listingText url title description)

/-- The `sale_score` local of `_extract_listing_type`. -/
def sale_score (url title description : String) : Nat :=
  keywordScore sale_keywords (listingText url title description)

/-- `DataNormalizer._extract_listing_type`: lowercases
`f"{url} {title} {description}"`, scores the rent and sale keyword sets, and
returns `RENT` when the rent score is strictly higher, `SALE` when the sale
score is strictly higher, and `SALE` on a tie (the code's explicit default). -/
def extract_listing_type (url title description : String) : String :=
  if rent_score url title description > sale_score url title description then
    "RENT"
  else if sale_score url title description > rent_score url title description then
    "SALE"
  else
    "SALE"

/-- Input dict of `DataNormalizer.normalize` (the fields the function reads:
`title` and `sourceUrl` are required lookups in the code, `description` and
`surfaceArea` are read with `.get`, `price` is the numeric value the extractor
always supplies). -/
structure NormInput where
  sourceUrl : String
  title : String
  description : Option String
  price : ℚ
  surfaceArea : Option ℚ
deriving DecidableEq

/-- Output record of `DataNormalizer.normalize`. -/
structure NormOutput where
  sourceUrl : String
  title : String
  description : Option String
  price : ℚ
  surfaceArea : Option ℚ
  propertyType : Option String
  listingType : String
  source : String
  status : String
  pricePerSqm : Option ℚ
deriving DecidableEq

/-- `DataNormalizer.normalize`: copies the record, classifies
`propertyType`/`listingType`, hardcodes `source`/`status`, and sets
`pricePerSqm = price / surfaceArea` exactly under the Python guard
`normalized.get('surfaceArea') and normalized.get('surfaceArea') > 0`
(truthiness, i.e. nonzero, and positivity). -/
def normalize (i : NormInput) : NormOutput :=
  { sourceUrl := i.sourceUrl
    title := i.title
    description := i.description
    price := i.price
    surfaceArea := i.surfaceArea
    propertyType := extract_property_type i.title
    listingType := extract_listing_type i.sourceUrl i.title (i.description.getD "")
    source := "TUNISIE_ANNONCE"
    status := "ACTIVE"
    pricePerSqm :=
      match i.surfaceArea with
      | some s => if s ≠ 0 ∧ 0 < s then some (i.price / s) else none
      | none => none }

end DataNormalizer

/-! ## Deal Rating Engine (`price_analyzer.py` snippet in
`data-factory/MIGRATION_GUIDE.md`, `PriceAnalyzer.calculate_deal_rating`) -/

namespace PriceAnalyzer

/-- The fields `calculate_deal_rating` reads from its `property_data` dict. -/
structure DealInput where
  city : Option String
  surfaceArea : Option ℚ
  price : Option ℚ
deriving DecidableEq

/-- `PriceAnalyzer.calculate_deal_rating`, with the neighborhood lookup
`self._get_neighborhood_avg` (a database query by city) passed in as `getAvg`.
The Python guard `if not all([city, surface, price]) or surface == 0` is
truthiness: it rejects a missing city/surface/price and equally an empty-string
city, a zero surface and a zero price. `if not avg` likewise rejects a missing
or zero average. Otherwise the result is
`round(max(0, min(100, 50 + discount * 2.5)), 1)` with
`discount = (avg - price/surface) / avg * 100`. -/
def calculate_deal_rating (getAvg : String → Option ℚ) (pd : DealInput) :
    Option ℚ :=
  match pd.city, pd.surfaceArea, pd.price with
  | some c, some s, some p =>
    if c = "" ∨ s = 0 ∨ p = 0 then none
    else
      match getAvg c with
      | some a =>
        if a = 0 then none
        else
          let price_per_sqm := p / s
          let discount := (a - price_per_sqm) / a * 100
          let deal_rating := max 0 (min 100 (50 + discount * (5/2)))
          some (pyRound1 deal_rating)
      | none => none
  | _, _, _ => none

end PriceAnalyzer

/-! ## Deduplicating upsert client (`db_client.py` snippet in
`data-factory/MIGRATION_GUIDE.md`, `upsert_property`) -/

namespace DBClient

/-- The `property_data` dict handed to `upsert_property`: keys the code reads
with `[...]` are required fields, keys read with `.get` are `Option`s. -/
structure UpsertInput where
  sourceUrl : String
  source : Option String
  listingType : String
  status : Option String
  title : String
  description : Option String
  price : ℚ
  currency : Option String
  city : Option String
  region : Option String
  latitude : Option ℚ
  longitude : Option ℚ
  propertyType : Option String
  surfaceArea : Option ℚ
  rooms : Option ℚ
  bathrooms : Option ℚ
  pricePerSqm : Option ℚ
  features : Option (List String)
  renovationScore : Option ℚ
  dealRating : Option ℚ
  aiTags : Option (List String)
  descriptionEmbedding : Option (List ℚ)
deriving DecidableEq

/-- Modelled from the spec: `DBClient._format_vector` is not in src/ (only its
call site is); the spec treats embeddings as an externally produced vector the
pipeline stores verbatim, so the encoding itself is modelled as a plain
rendering whose exact text is irrelevant to every claim (only the presence of
the key matters). -/
def format_vector (v : List ℚ) : String := toString v.length

/-- A dict value in the `payload` dict: string, number, list of strings, or
Python `None`. -/
inductive Val where
  | vstr : String → Val
  | vnum : ℚ → Val
  | vlist : List String → Val
  | vnone : Val
deriving DecidableEq

/-- A `.get(key)` lookup as a dict value: `None` for a missing key. -/
def optStr : Option String → Val
  | some s => Val.vstr s
  | none => Val.vnone

/-- A `.get(key)` lookup of a numeric field as a dict value. -/
def optNum : Option ℚ → Val
  | some q => Val.vnum q
  | none => Val.vnone

/-- The `payload` dict of `upsert_property` exactly as the code builds it,
before the `None`-filter, as an association list in the code's key order;
`now` stands for `datetime.utcnow().isoformat()`. The embedding entry is
appended afterwards under the code's truthiness test
`if property_data.get('descriptionEmbedding'):`. -/
def rawPayload (pd : UpsertInput) (now : ℚ) : List (String × Val) :=
  [("sourceUrl", Val.vstr pd.sourceUrl),
   ("source", Val.vstr (pd.source.getD "TUNISIE_ANNONCE")),
   ("listingType", Val.vstr pd.listingType),
   ("status", Val.vstr (pd.status.getD "ACTIVE")),
   ("title", Val.vstr pd.title),
   ("description", optStr pd.description),
   ("price", Val.vnum pd.price),
   ("currency", Val.vstr (pd.currency.getD "TND")),
   ("city", optStr pd.city),
   ("region", optStr pd.region),
   ("latitude", optNum pd.latitude),
   ("longitude", optNum pd.longitude),
   ("propertyType", optStr pd.propertyType),
   ("surfaceArea", optNum pd.surfaceArea),
   ("rooms", optNum pd.rooms),
   ("bathrooms", optNum pd.bathrooms),
   ("pricePerSqm", optNum pd.pricePerSqm),
   ("features", Val.vlist (pd.features.getD [])),
   ("renovationScore", optNum pd.renovationScore),
   ("dealRating", optNum pd.dealRating),
   ("aiTags", Val.vlist (pd.aiTags.getD [])),
   ("updatedAt", Val.vnum now),
   ("scrapedAt", Val.vnum now)]
  ++ (match pd.descriptionEmbedding with
      | some e => if e ≠ [] then [("descriptionEmbedding", Val.vstr (format_vector e))] else []
      | none => [])

/-- True for an entry the `None`-filter keeps. -/
def notNone : String × Val → Bool
  | (_, Val.vnone) => false
  | _ => true

/-- `payload = {k: v for k, v in payload.items() if v is not None}`: the dict
`upsert_property` actually sends to the store. -/
def payload (pd : UpsertInput) (now : ℚ) : List (String × Val) :=
  (rawPayload pd now).filter notNone

/-- The filtered payload read field by field: `none` means the key was removed
by the `None`-filter (equivalently, the `.get` returned `None`); required and
defaulted keys always survive the filter so they are plain values. -/
structure Payload where
  sourceUrl : String
  source : String
  listingType : String
  status : String
  title : String
  description : Option String
  price : ℚ
  currency : String
  city : Option String
  region : Option String
  latitude : Option ℚ
  longitude : Option ℚ
  propertyType : Option String
  surfaceArea : Option ℚ
  rooms : Option ℚ
  bathrooms : Option ℚ
  pricePerSqm : Option ℚ
  features : List String
  renovationScore : Option ℚ
  dealRating : Option ℚ
  aiTags : List String
  updatedAt : ℚ
  scrapedAt : ℚ
  descriptionEmbedding : Option String
deriving DecidableEq

/-- Field-level reading of `payload pd now` (same construction, structure view
instead of dict view). -/
def mkPayload (pd : UpsertInput) (now : ℚ) : Payload :=
  { sourceUrl := pd.sourceUrl
    source := pd.source.getD "TUNISIE_ANNONCE"
    listingType := pd.listingType
    status := pd.status.getD "ACTIVE"
    title := pd.title
    description := pd.description
    price := pd.price
    currency := pd.currency.getD "TND"
    city := pd.city
    region := pd.region
    latitude := pd.latitude
    longitude := pd.longitude
    propertyType := pd.propertyType
    surfaceArea := pd.surfaceArea
    rooms := pd.rooms
    bathrooms := pd.bathrooms
    pricePerSqm := pd.pricePerSqm
    features := pd.features.getD []
    renovationScore := pd.renovationScore
    dealRating := pd.dealRating
    aiTags := pd.aiTags.getD []
    updatedAt := now
    scrapedAt := now
    descriptionEmbedding :=
      match pd.descriptionEmbedding with
      | some e => if e ≠ [] then some (format_vector e) else none
      | none => none }

/-- A stored `Property` row; nullable columns are `Option`s, `createdAt` is
set once at insert. -/
structure PropertyRow where
  sourceUrl : String
  source : String
  listingType : String
  status : String
  title : String
  description : Option String
  price : ℚ
  currency : String
  city : Option String
  region : Option String
  latitude : Option ℚ
  longitude : Option ℚ
  propertyType : Option String
  surfaceArea : Option ℚ
  rooms : Option ℚ
  bathrooms : Option ℚ
  pricePerSqm : Option ℚ
  features : List String
  renovationScore : Option ℚ
  dealRating : Option ℚ
  aiTags : List String
  updatedAt : ℚ
  scrapedAt : ℚ
  descriptionEmbedding : Option String
  createdAt : ℚ
deriving DecidableEq

/-- Modelled from the spec: the `# Upsert logic...` body of `upsert_property`
is elided in src/; §4.5 fixes its contract: on a `sourceUrl` hit the store
applies exactly the keys present in the payload to the existing row
(`createdAt` untouched), keys absent from the payload keep their stored value. -/
def applyPayload (r : PropertyRow) (p : Payload) : PropertyRow :=
  { sourceUrl := p.sourceUrl
    source := p.source
    listingType := p.listingType
    status := p.status
    title := p.title
    description := upd p.description r.description
    price := p.price
    currency := p.currency
    city := upd p.city r.city
    region := upd p.region r.region
    latitude := upd p.latitude r.latitude
    longitude := upd p.longitude r.longitude
    propertyType := upd p.propertyType r.propertyType
    surfaceArea := upd p.surfaceArea r.surfaceArea
    rooms := upd p.rooms r.rooms
    bathrooms := upd p.bathrooms r.bathrooms
    pricePerSqm := upd p.pricePerSqm r.pricePerSqm
    features := p.features
    renovationScore := upd p.renovationScore r.renovationScore
    dealRating := upd p.dealRating r.dealRating
    aiTags := p.aiTags
    updatedAt := p.updatedAt
    scrapedAt := p.scrapedAt
    descriptionEmbedding := upd p.descriptionEmbedding r.descriptionEmbedding
    createdAt := r.createdAt }

/-- Modelled from the spec (§4.5): a `sourceUrl` miss inserts a fresh row with
`createdAt = now`; payload keys absent after the `None`-filter are stored NULL. -/
def newRow (p : Payload) (now : ℚ) : PropertyRow :=
  { sourceUrl := p.sourceUrl
    source := p.source
    listingType := p.listingType
    status := p.status
    title := p.title
    description := p.description
    price := p.price
    currency := p.currency
    city := p.city
    region := p.region
    latitude := p.latitude
    longitude := p.longitude
    propertyType := p.propertyType
    surfaceArea := p.surfaceArea
    rooms := p.rooms
    bathrooms := p.bathrooms
    pricePerSqm := p.pricePerSqm
    features := p.features
    renovationScore := p.renovationScore
    dealRating := p.dealRating
    aiTags := p.aiTags
    updatedAt := p.updatedAt
    scrapedAt := p.scrapedAt
    descriptionEmbedding := p.descriptionEmbedding
    createdAt := now }

/-- `DBClient.upsert_property` against a store modelled as a list of rows
(`sourceUrl` the unique key, per §4.5 and the schema's unique constraint):
build the payload, then update the matching row or insert a new one. -/
def upsert_property (store : List PropertyRow) (pd : UpsertInput) (now : ℚ) :
    List PropertyRow :=
  let p := mkPayload pd now
  if store.any (fun r => r.sourceUrl = pd.sourceUrl) then
    store.map (fun r => if r.sourceUrl = pd.sourceUrl then applyPayload r p else r)
  else
    newRow p now :: store

end DBClient

/-! ## Neighborhood aggregator (`update_neighborhood_stats` SQL in
`frontend/prisma/SCHEMA_CHANGES.md`) -/

namespace Aggregator

/-- The columns of `properties` the aggregation reads. -/
structure AggProp where
  city : Option String
  region : Option String
  price : ℚ
  surfaceArea : Option ℚ
  status : String
deriving DecidableEq

/-- The SQL `WHERE city IS NOT NULL AND surface_area > 0`: a NULL
`surface_area` makes the comparison unknown, so the row is excluded. -/
def aggIncluded (p : AggProp) : Bool :=
  p.city.isSome &&
    (match p.surfaceArea with
     | some s => decide (0 < s)
     | none => false)

/-- The filtered row set the whole aggregation runs over. -/
def aggFiltered (ps : List AggProp) : List AggProp := ps.filter aggIncluded

/-- The `GROUP BY city, region` key of a row (SQL grouping puts NULL regions
in one group, as `Option` equality does). -/
def aggKey (p : AggProp) : Option String × Option String := (p.city, p.region)

/-- The distinct group keys of the filtered rows. -/
def localKeys (ps : List AggProp) : List (Option String × Option String) :=
  ((aggFiltered ps).map aggKey).dedup

/-- `price / NULLIF(surface_area, 0)`: NULL when the surface is NULL or zero,
so `AVG` skips such rows. -/
def ratioTerm (p : AggProp) : Option ℚ :=
  match p.surfaceArea with
  | some s => if s = 0 then none else some (p.price / s)
  | none => none

/-- SQL `AVG` over the non-NULL values. -/
def avgQ (l : List ℚ) : Option ℚ :=
  if l.isEmpty then none else some (l.sum / (l.length : ℚ))

/-- Insertion step of an ascending sort. -/
def insQ (x : ℚ) : List ℚ → List ℚ
  | [] => [x]
  | y :: ys => if x ≤ y then x :: y :: ys else y :: insQ x ys

/-- Ascending insertion sort, the `ORDER BY price` of the percentile. -/
def sortQ : List ℚ → List ℚ
  | [] => []
  | x :: xs => insQ x (sortQ xs)

/-- `PERCENTILE_CONT(0.5) WITHIN GROUP (ORDER BY price)`: the middle element
of the sorted values, or the mean of the two middle ones for an even count. -/
def medianQ (l : List ℚ) : Option ℚ :=
  let s := sortQ l
  let n := s.length
  if n = 0 then none
  else if n % 2 = 1 then s.get? (n / 2)
  else
    match s.get? (n / 2 - 1), s.get? (n / 2) with
    | some a, some b => some ((a + b) / 2)
    | _, _ => none

/-- A `neighborhood_stats` row (its `updated_at` is the run time). -/
structure StatsRow where
  city : Option String
  region : Option String
  avgPricePerSqm : Option ℚ
  medianPrice : Option ℚ
  totalListings : ℕ
  activeListings : ℕ
  updatedAt : ℚ
deriving DecidableEq

/-- The key of a stats row, matching the `ON CONFLICT (city, region)` target. -/
def statsKey (r : StatsRow) : Option String × Option String := (r.city, r.region)

/-- The aggregate row the `SELECT ... GROUP BY city, region` produces for one
group key: `AVG(price / NULLIF(surface_area, 0))`, the median price,
`COUNT(*)` and `COUNT(*) FILTER (WHERE status = 'ACTIVE')`, all over the
filtered rows of that group. -/
def statsFor (ps : List AggProp) (now : ℚ)
    (k : Option String × Option String) : StatsRow :=
  let rows := (aggFiltered ps).filter (fun p => aggKey p = k)
  { city := k.1
    region := k.2
    avgPricePerSqm := avgQ (rows.filterMap ratioTerm)
    medianPrice := medianQ (rows.map (fun p => p.price))
    totalListings := rows.length
    activeListings := (rows.filter (fun p => p.status = "ACTIVE")).length
    updatedAt := now }

/-- The full result set of the aggregation `SELECT`. -/
def computeStats (ps : List AggProp) (now : ℚ) : List StatsRow :=
  (localKeys ps).map (statsFor ps now)

/-- `INSERT ... ON CONFLICT (city, region) DO UPDATE SET ...` of one computed
row into the stats table: a key hit replaces the stored values, a miss
appends; no row is ever deleted. -/
def upsertStatsRow (table : List StatsRow) (c : StatsRow) : List StatsRow :=
  if table.any (fun r => statsKey r = statsKey c) then
    table.map (fun r => if statsKey r = statsKey c then c else r)
  else
    table ++ [c]

/-- `update_neighborhood_stats`: compute the aggregation over the current
`properties` snapshot and upsert every computed row into the existing
`neighborhood_stats` table. -/
def update_neighborhood_stats (existing : List StatsRow) (ps : List AggProp)
    (now : ℚ) : List StatsRow :=
  (computeStats ps now).foldl upsertStatsRow existing

end Aggregator

/-! ## Concrete inputs used by the counterexamples and exhibits -/

/-- A normalizer input with price 0 and positive surface (claim C6). -/
def iC6 : DataNormalizer.NormInput :=
  { sourceUrl := "https://example.test/c6", title := "Terrain",
    description := none, price := 0, surfaceArea := some 50 }

/-- An unchanged listing upserted twice (claim C2). -/
def pdC2 : DBClient.UpsertInput :=
  { sourceUrl := "https://example.test/c2", source := none,
    listingType := "SALE", status := none, title := "Maison",
    description := none, price := 100000, currency := none, city := none,
    region := none, latitude := none, longitude := none, propertyType := none,
    surfaceArea := none, rooms := none, bathrooms := none, pricePerSqm := none,
    features := none, renovationScore := none, dealRating := none,
    aiTags := none, descriptionEmbedding := none }

/-- A stored row carrying the enrichment `aiTags = ["x"]` (claim C3). -/
def rowC3 : DBClient.PropertyRow :=
  { sourceUrl := "https://example.test/c3", source := "TUNISIE_ANNONCE",
    listingType := "SALE", status := "ACTIVE", title := "Villa",
    description := none, price := 300000, currency := "TND", city := none,
    region := none, latitude := none, longitude := none, propertyType := none,
    surfaceArea := none, rooms := none, bathrooms := none, pricePerSqm := none,
    features := [], renovationScore := none, dealRating := some 80,
    aiTags := ["x"], updatedAt := 0, scrapedAt := 0,
    descriptionEmbedding := none, createdAt := 0 }

/-- A re-scrape of the same listing supplying no `aiTags` key (claim C3). -/
def pdC3 : DBClient.UpsertInput :=
  { sourceUrl := "https://example.test/c3", source := none,
    listingType := "SALE", status := none, title := "Villa",
    description := none, price := 300000, currency := none, city := none,
    region := none, latitude := none, longitude := none, propertyType := none,
    surfaceArea := none, rooms := none, bathrooms := none, pricePerSqm := none,
    features := none, renovationScore := none, dealRating := none,
    aiTags := none, descriptionEmbedding := none }

/-- One locality with one zero-surface property among two (claim C8). -/
def psC8 : List Aggregator.AggProp :=
  [{ city := some "Tunis", region := some "Lac", price := 100,
     surfaceArea := some 50, status := "ACTIVE" },
   { city := some "Tunis", region := some "Lac", price := 200,
     surfaceArea := some 0, status := "ACTIVE" }]

/-- A pre-existing stats row for a locality not in the snapshot (claim C9). -/
def staleC9 : Aggregator.StatsRow :=
  { city := some "Sousse", region := some "Centre", avgPricePerSqm := some 9,
    medianPrice := some 9, totalListings := 9, activeListings := 9,
    updatedAt := 0 }

/-- A snapshot with exactly two localities (claim C9). -/
def psC9 : List Aggregator.AggProp :=
  [{ city := some "Tunis", region := some "Lac", price := 100,
     surfaceArea := some 50, status := "ACTIVE" },
   { city := some "Ariana", region := some "Soukra", price := 120,
     surfaceArea := some 60, status := "SOLD" }]

/-! ## Helper lemmas -/

theorem upd_self {α : Type} (a : Option α) : upd a a = a := by
  cases a <;> rfl

theorem upd_isSome {α : Type} (a b : Option α) (h : b.isSome) :
    (upd a b).isSome := by
  cases a <;> simp [upd, h]

theorem pyRound1_zero : pyRound1 0 = 0 := by
  norm_num [pyRound1, roundHalfEven]

open DataNormalizer in
/-- The three-way `if` of `_extract_listing_type` collapses to a two-way one:
both the sale-wins branch and the tie branch return `SALE`. -/
theorem extract_listing_type_eq (url title description : String) :
    extract_listing_type url title description =
      if rent_score url title description > sale_score url title description
      then "RENT" else "SALE" := by
  unfold extract_listing_type
  by_cases h : rent_score url title description > sale_score url title description <;>
    simp [h]

open PriceAnalyzer in
/-- Evaluation of `calculate_deal_rating` on present, truthy inputs. -/
theorem deal_rating_formula (getAvg : String → Option ℚ) (c : String)
    (s p a : ℚ) (hc : c ≠ "") (hs : s ≠ 0) (hp : p ≠ 0)
    (hg : getAvg c = some a) (ha : a ≠ 0) :
    calculate_deal_rating getAvg ⟨some c, some s, some p⟩ =
      some (pyRound1 (max 0 (min 100 (50 + ((a - p / s) / a * 100) * (5/2))))) := by
  simp [calculate_deal_rating, hc, hs, hp, hg, ha]

open Aggregator in
/-- Filtering twice with the aggregation predicate filters once. -/
theorem aggFiltered_idem (ps : List AggProp) :
    aggFiltered (aggFiltered ps) = aggFiltered ps := by
  induction ps with
  | nil => rfl
  | cons p t ih =>
    by_cases h : aggIncluded p
    · simp only [aggFiltered, List.filter_cons, h, if_true]
      simpa [aggFiltered] using ih
    · simpa [aggFiltered, List.filter_cons, h] using ih

open Aggregator in
/-- An upserted row is in the resulting table. -/
theorem mem_upsertStatsRow_self (table : List StatsRow) (c : StatsRow) :
    c ∈ upsertStatsRow table c := by
  unfold upsertStatsRow
  split
  · next h =>
    rcases List.any_eq_true.mp h with ⟨r, hr, hkey⟩
    exact List.mem_map.mpr ⟨r, hr, by simp [of_decide_eq_true hkey]⟩
  · simp

open Aggregator in
/-- A row whose key differs from the upserted one survives the upsert. -/
theorem mem_upsertStatsRow_of_ne (table : List StatsRow) (c r : StatsRow)
    (hr : r ∈ table) (hne : statsKey r ≠ statsKey c) :
    r ∈ upsertStatsRow table c := by
  unfold upsertStatsRow
  split
  · exact List.mem_map.mpr ⟨r, hr, by simp [hne]⟩
  · exact List.mem_append.mpr (Or.inl hr)

open Aggregator in
/-- Every row of an upserted table is an old row or the upserted one. -/
theorem mem_upsertStatsRow_cases (table : List StatsRow) (c x : StatsRow)
    (hx : x ∈ upsertStatsRow table c) : x ∈ table ∨ x = c := by
  unfold upsertStatsRow at hx
  split at hx
  · rcases List.mem_map.mp hx with ⟨y, hy, hxy⟩
    by_cases h : statsKey y = statsKey c
    · rw [if_pos h] at hxy
      exact Or.inr hxy.symm
    · rw [if_neg h] at hxy
      exact Or.inl (hxy ▸ hy)
  · rcases List.mem_append.mp hx with h | h
    · exact Or.inl h
    · exact Or.inr (List.mem_singleton.mp h)

open Aggregator in
/-- A row whose key matches no upserted row survives a whole fold of upserts. -/
theorem foldl_upsert_preserve (rows : List StatsRow) (table : List StatsRow)
    (r : StatsRow) (hr : r ∈ table)
    (hall : ∀ c ∈ rows, statsKey r ≠ statsKey c) :
    r ∈ rows.foldl upsertStatsRow table := by
  induction rows generalizing table with
  | nil => exact hr
  | cons c cs ih =>
    exact ih _
      (mem_upsertStatsRow_of_ne _ _ _ hr (hall c (List.mem_cons_self c cs)))
      (fun d hd => hall d (List.mem_cons_of_mem c hd))

open Aggregator in
/-- When the upserted rows have pairwise distinct keys, each of them is in the
folded table. -/
theorem foldl_upsert_mem (rows : List StatsRow) :
    ∀ (table : List StatsRow) (c : StatsRow), c ∈ rows →
      (rows.map statsKey).Nodup → c ∈ rows.foldl upsertStatsRow table := by
  induction rows with
  | nil => intro table c hc _; cases hc
  | cons d ds ih =>
    intro table c hc hnd
    rw [List.map_cons] at hnd
    rcases List.mem_cons.mp hc with rfl | hc2
    · apply foldl_upsert_preserve ds _ _ (mem_upsertStatsRow_self _ _)
      intro e he heq
      exact (List.nodup_cons.mp hnd).1 (heq ▸ List.mem_map_of_mem statsKey he)
    · exact ih _ c hc2 (List.nodup_cons.mp hnd).2

open Aggregator in
/-- Every row of the folded table is an old row or one of the upserted rows. -/
theorem foldl_upsert_cases (rows : List StatsRow) (table : List StatsRow)
    (x : StatsRow) (hx : x ∈ rows.foldl upsertStatsRow table) :
    x ∈ table ∨ x ∈ rows := by
  induction rows generalizing table with
  | nil => exact Or.inl hx
  | cons c cs ih =>
    rcases ih _ hx with h | h
    · rcases mem_upsertStatsRow_cases _ _ _ h with h2 | h2
      · exact Or.inl h2
      · exact Or.inr (h2 ▸ List.mem_cons_self c cs)
    · exact Or.inr (List.mem_cons_of_mem c h)

open Aggregator in
/-- The keys of the computed stats rows are the distinct locality keys. -/
theorem computeStats_keys (ps : List AggProp) (now : ℚ) :
    (computeStats ps now).map statsKey = localKeys ps := by
  simp only [computeStats, List.map_map]
  have h : statsKey ∘ statsFor ps now = id := by
    funext k
    simp [statsKey, statsFor]
  rw [h, List.map_id]

open Aggregator in
/-- The computed stats rows have pairwise distinct keys. -/
theorem computeStats_keys_nodup (ps : List AggProp) (now : ℚ) :
    ((computeStats ps now).map statsKey).Nodup := by
  rw [computeStats_keys]
  exact List.nodup_dedup _

/-! ## Claims -/

open DataNormalizer in
/-- Claim C4: listing-type classification counts the case-insensitive
occurrences of the rent-keyword set and of the sale-keyword set over
url+title+description; it returns RENT exactly when the rent count is
strictly greater than the sale count, SALE when the sale count is strictly
greater, and SALE on any tie, including the zero-zero tie where no keyword
of either set occurs. -/
theorem C4_listing_type_counts :
    ∀ url title description : String,
      (extract_listing_type url title description = "RENT" ↔
        rent_score url title description > sale_score url title description)
      ∧ (sale_score url title description > rent_score url title description →
          extract_listing_type url title description = "SALE")
      ∧ (rent_score url title description = sale_score url title description →
          extract_listing_type url title description = "SALE")
      ∧ (rent_score "" "" "" = 0 ∧ sale_score "" "" "" = 0 ∧
          extract_listing_type "" "" "" = "SALE") := by
  intro url title description
  rw [extract_listing_type_eq]
  refine ⟨?_, ?_, ?_, by decide⟩
  · by_cases h : rent_score url title description > sale_score url title description <;>
      simp [h]
  · intro h
    rw [if_neg (by omega)]
  · intro h
    rw [if_neg (by omega)]

open DataNormalizer in
/-- Claim C5: the Normalizer's output always carries a listingType that is one
of RENT and SALE and the non-null source TUNISIE_ANNONCE; this holds for every
input (so in particular for those with a non-empty title and a parseable
price), hence no record is ever persisted with these required fields null —
the rejection clause is vacuous because classification is total. -/
theorem C5_required_fields :
    ∀ i : NormInput,
      ((normalize i).listingType = "RENT" ∨ (normalize i).listingType = "SALE")
      ∧ (normalize i).source = "TUNISIE_ANNONCE"
      ∧ (normalize i).status = "ACTIVE" := by
  intro i
  refine ⟨?_, rfl, rfl⟩
  show extract_listing_type _ _ _ = "RENT" ∨ extract_listing_type _ _ _ = "SALE"
  rw [extract_listing_type_eq]
  by_cases h : rent_score i.sourceUrl i.title (i.description.getD "") >
      sale_score i.sourceUrl i.title (i.description.getD "") <;> simp [h]

open DataNormalizer in
/-- Claim C6, counterexample: the claim says pricePerArea is computed as
price / surfaceArea only when both price > 0 and surfaceArea > 0, but on an
input with price = 0 and surfaceArea = 50 the code still computes it (the
guard checks only the surface), producing 0 instead of the null the claim
requires. -/
theorem C6_counterexample :
    iC6.price = 0 ∧ iC6.surfaceArea = some 50 ∧
      (normalize iC6).pricePerSqm = some 0 ∧
      (normalize iC6).pricePerSqm ≠ none := by
  refine ⟨rfl, rfl, ?_, ?_⟩ <;> simp [DataNormalizer.normalize, iC6]

open DataNormalizer in
/-- Claim C6, amended: pricePerSqm is null exactly when surfaceArea is null or
non-positive, and equals price / surfaceArea whenever surfaceArea > 0
(regardless of the sign of price); whenever a quotient is produced its divisor
was strictly positive, so the division is never evaluated with surfaceArea
equal to 0. -/
theorem C6_amended :
    ∀ i : NormInput,
      (i.surfaceArea = none → (normalize i).pricePerSqm = none)
      ∧ (∀ s, i.surfaceArea = some s → s ≤ 0 → (normalize i).pricePerSqm = none)
      ∧ (∀ s, i.surfaceArea = some s → 0 < s →
          (normalize i).pricePerSqm = some (i.price / s))
      ∧ (∀ v, (normalize i).pricePerSqm = some v →
          ∃ s, i.surfaceArea = some s ∧ 0 < s ∧ v = i.price / s) := by
  intro i
  refine ⟨?_, ?_, ?_, ?_⟩
  · intro h
    simp [DataNormalizer.normalize, h]
  · intro s hs hle
    have hneg : ¬ (s ≠ 0 ∧ 0 < s) := by
      rintro ⟨-, hlt⟩
      exact absurd hlt (not_lt.mpr hle)
    simp [DataNormalizer.normalize, hs, hneg]
  · intro s hs hpos
    simp [DataNormalizer.normalize, hs, hpos, ne_of_gt hpos]
  · intro v hv
    have hv2 : (match i.surfaceArea with
        | some s => if s ≠ 0 ∧ 0 < s then some (i.price / s) else none
        | none => (none : Option ℚ)) = some v := hv
    rcases hs : i.surfaceArea with - | s
    · rw [hs] at hv2
      cases hv2
    · rw [hs] at hv2
      dsimp only at hv2
      by_cases hpos : s ≠ 0 ∧ 0 < s
      · rw [if_pos hpos] at hv2
        exact ⟨s, rfl, hpos.2, (Option.some.inj hv2).symm⟩
      · rw [if_neg hpos] at hv2
        cases hv2

open PriceAnalyzer in
/-- Claim C1, counterexample: on a property with price 0 (non-null) and
surfaceArea 100, with stats present (average 2500 > 0), the claim's formula
gives clamp(50 + 100 * 2.5, 0, 100) = 100, but the code returns null: the
Python truthiness guard `all([city, surface, price])` treats price 0 as
missing. A second input shows the returned value is additionally rounded to
one decimal (583/10), not the raw clamp value (175/3). -/
theorem C1_counterexample :
    calculate_deal_rating (fun c => if c = "Tunis" then some 2500 else none)
        ⟨some "Tunis", some 100, some 0⟩ = none
    ∧ max 0 (min 100 (50 + ((2500 - (0 : ℚ) / 100) / 2500 * 100) * (5/2))) = 100
    ∧ calculate_deal_rating (fun _ => some 3) ⟨some "T", some 10, some 29⟩ =
        some (583/10)
    ∧ max 0 (min 100 (50 + ((3 - (29 : ℚ) / 10) / 3 * 100) * (5/2))) = 175/3
    ∧ (583/10 : ℚ) ≠ 175/3 := by
  refine ⟨?_, ?_, ?_, ?_, by norm_num⟩
  · simp [calculate_deal_rating]
  · norm_num [min_def, max_def]
  · rw [deal_rating_formula (fun _ => some 3) "T" 10 29 3 (by decide)
      (by norm_num) (by norm_num) rfl (by norm_num)]
    norm_num [min_def, max_def, pyRound1, roundHalfEven]
  · norm_num [min_def, max_def]

open PriceAnalyzer in
/-- Claim C1, amended: the engine returns null when city, price or surfaceArea
is missing, when any of them is falsy (empty city, zero price, zero surface —
not only when they are absent), and when the locality average is missing or
zero; when city is present and non-empty, price and surfaceArea are present
and nonzero, and the average is present and positive, it returns the claimed
clamp value rounded to one decimal:
round1(clamp(50 + discountPct * 2.5, 0, 100)). -/
theorem C1_amended :
    ∀ (getAvg : String → Option ℚ) (pd : DealInput),
      ((pd.city = none ∨ pd.surfaceArea = none ∨ pd.price = none) →
        calculate_deal_rating getAvg pd = none)
      ∧ (∀ c s, pd.city = some c → pd.surfaceArea = some s →
          pd.price = some 0 → calculate_deal_rating getAvg pd = none)
      ∧ (pd.city = some "" → calculate_deal_rating getAvg pd = none)
      ∧ (pd.surfaceArea = some 0 → calculate_deal_rating getAvg pd = none)
      ∧ (∀ c, pd.city = some c → getAvg c = none →
          calculate_deal_rating getAvg pd = none)
      ∧ (∀ c, pd.city = some c → getAvg c = some 0 →
          calculate_deal_rating getAvg pd = none)
      ∧ (∀ c s p a, pd.city = some c → pd.surfaceArea = some s →
          pd.price = some p → c ≠ "" → s ≠ 0 → p ≠ 0 →
          getAvg c = some a → 0 < a →
          calculate_deal_rating getAvg pd =
            some (pyRound1 (max 0 (min 100
              (50 + ((a - p / s) / a * 100) * (5/2)))))) := by
  intro getAvg pd
  obtain ⟨city, surface, price⟩ := pd
  refine ⟨?_, ?_, ?_, ?_, ?_, ?_, ?_⟩
  · rintro (rfl | rfl | rfl)
    · rcases surface with - | s <;> rcases price with - | p <;> rfl
    · rcases city with - | c <;> rcases price with - | p <;> rfl
    · rcases city with - | c <;> rcases surface with - | s <;> rfl
  · rintro c s rfl rfl rfl
    simp [calculate_deal_rating]
  · rintro rfl
    rcases surface with - | s
    · rcases price with - | p <;> rfl
    rcases price with - | p
    · rfl
    simp [calculate_deal_rating]
  · rintro rfl
    rcases city with - | c
    · rcases price with - | p <;> rfl
    rcases price with - | p
    · rfl
    simp [calculate_deal_rating]
  · rintro c rfl hg
    rcases surface with - | s
    · rfl
    rcases price with - | p
    · rfl
    simp [calculate_deal_rating, hg]
  · rintro c rfl hg
    rcases surface with - | s
    · rfl
    rcases price with - | p
    · rfl
    simp [calculate_deal_rating, hg]
  · rintro c s p a rfl rfl rfl hc hs hp hg ha
    exact deal_rating_formula getAvg c s p a hc hs hp hg (ne_of_gt ha)

open PriceAnalyzer in
/-- Claim C7, counterexample: for a property with price 0 and positive
surfaceArea (pricePerArea 0, the degenerate case) and locality stats present
with a positive average, the claim says the engine returns 100; the code
returns null, because Python truthiness makes `all([city, surface, price])`
fail on price 0. -/
theorem C7_counterexample :
    calculate_deal_rating (fun c => if c = "Sfax" then some 2000 else none)
        ⟨some "Sfax", some 50, some 0⟩ = none := by
  simp [calculate_deal_rating]

open PriceAnalyzer in
/-- Claim C7, amended: for price 0 (the degenerate pricePerArea-0 case) the
engine returns null, not 100 (price 0 is falsy to the guard); and for a
property whose price-per-area is at least 20% above the locality average it
returns 0, never a negative value. -/
theorem C7_amended :
    ∀ getAvg : String → Option ℚ,
      (∀ c s, calculate_deal_rating getAvg ⟨some c, some s, some 0⟩ = none)
      ∧ (∀ c s p a, c ≠ "" → 0 < s → 0 < p → getAvg c = some a → 0 < a →
          (6/5 : ℚ) * a ≤ p / s →
          calculate_deal_rating getAvg ⟨some c, some s, some p⟩ = some 0) := by
  intro getAvg
  constructor
  · intro c s
    simp [calculate_deal_rating]
  · intro c s p a hc hs hp hg ha hfar
    rw [deal_rating_formula getAvg c s p a hc (ne_of_gt hs) (ne_of_gt hp) hg
      (ne_of_gt ha)]
    have h1 : (a - p / s) / a ≤ -(1/5) := by
      rw [div_le_iff₀ ha]
      linarith
    have h2 : (a - p / s) / a * 100 ≤ -20 := by
      have := mul_le_mul_of_nonneg_right h1 (by norm_num : (0:ℚ) ≤ 100)
      linarith
    have h3 : 50 + ((a - p / s) / a * 100) * (5/2) ≤ 0 := by
      have := mul_le_mul_of_nonneg_right h2 (by norm_num : (0:ℚ) ≤ 5/2)
      linarith
    have h4 : min 100 (50 + ((a - p / s) / a * 100) * (5/2)) =
        50 + ((a - p / s) / a * 100) * (5/2) :=
      min_eq_right (le_trans h3 (by norm_num))
    have h5 : max 0 (min 100 (50 + ((a - p / s) / a * 100) * (5/2))) = 0 := by
      rw [h4]
      exact max_eq_left h3
    rw [h5, pyRound1_zero]

namespace DBClient

/-- Equality of two stored rows on every field except `updatedAt` and
`scrapedAt`. -/
def eqExceptTimestamps (a b : PropertyRow) : Prop :=
  a.sourceUrl = b.sourceUrl ∧ a.source = b.source ∧
  a.listingType = b.listingType ∧ a.status = b.status ∧ a.title = b.title ∧
  a.description = b.description ∧ a.price = b.price ∧
  a.currency = b.currency ∧ a.city = b.city ∧ a.region = b.region ∧
  a.latitude = b.latitude ∧ a.longitude = b.longitude ∧
  a.propertyType = b.propertyType ∧ a.surfaceArea = b.surfaceArea ∧
  a.rooms = b.rooms ∧ a.bathrooms = b.bathrooms ∧
  a.pricePerSqm = b.pricePerSqm ∧ a.features = b.features ∧
  a.renovationScore = b.renovationScore ∧ a.dealRating = b.dealRating ∧
  a.aiTags = b.aiTags ∧
  a.descriptionEmbedding = b.descriptionEmbedding ∧
  a.createdAt = b.createdAt

end DBClient

open DBClient in
/-- Claim C2, counterexample: upserting the same unchanged listing twice does
produce exactly one row, but not every field except `updatedAt` is unchanged:
the payload sets `scrapedAt` to the write time unconditionally, so the second
upsert also changes `scrapedAt` (from 0 to 1 here). -/
theorem C2_counterexample :
    (upsert_property (upsert_property [] pdC2 0) pdC2 1).length = 1
    ∧ (upsert_property [] pdC2 0).map (fun r => r.scrapedAt) = [0]
    ∧ (upsert_property (upsert_property [] pdC2 0) pdC2 1).map
        (fun r => r.scrapedAt) = [1]
    ∧ (0 : ℚ) ≠ 1 := by
  refine ⟨?_, ?_, ?_, by norm_num⟩ <;> decide

open DBClient in
/-- Claim C2, amended: upserting the same unchanged listing twice produces
exactly one row keyed by sourceUrl, and after the second upsert every field is
identical to its value after the first upsert except `updatedAt` and
`scrapedAt`, which both carry the time of the respective write (the scrape
path stamps `scrapedAt` on every write). -/
theorem C2_amended :
    ∀ (pd : DBClient.UpsertInput) (t1 t2 : ℚ),
      (upsert_property (upsert_property [] pd t1) pd t2).length = 1
      ∧ (∀ r1 r2, r1 ∈ upsert_property [] pd t1 →
          r2 ∈ upsert_property (upsert_property [] pd t1) pd t2 →
          eqExceptTimestamps r2 r1 ∧ r2.updatedAt = t2 ∧ r2.scrapedAt = t2 ∧
            r1.updatedAt = t1 ∧ r1.scrapedAt = t1) := by
  intro pd t1 t2
  have h1 : upsert_property [] pd t1 = [newRow (mkPayload pd t1) t1] := by
    simp [upsert_property]
  have h2 : upsert_property [newRow (mkPayload pd t1) t1] pd t2 =
      [applyPayload (newRow (mkPayload pd t1) t1) (mkPayload pd t2)] := by
    simp [upsert_property, newRow, mkPayload]
  rw [h1, h2]
  refine ⟨rfl, ?_⟩
  intro r1 r2 hr1 hr2
  rw [List.mem_singleton] at hr1 hr2
  subst hr1
  subst hr2
  refine ⟨?_, rfl, rfl, rfl, rfl⟩
  simp [eqExceptTimestamps, applyPayload, newRow, mkPayload, upd_self]

open DBClient in
/-- Claim C3: the code contradicts the preservation contract for `aiTags`.
The payload defaults `aiTags` to `[]` when the caller supplies none, the
empty list survives the `None`-filter, and the upsert overwrites the stored
`["x"]` with `[]` — while `dealRating`, protected by the `None`-filter,
is preserved. -/
theorem C3_bug_exhibit :
    pdC3.aiTags = none
    ∧ rowC3.aiTags = ["x"]
    ∧ ("aiTags", DBClient.Val.vlist []) ∈ payload pdC3 1
    ∧ (upsert_property [rowC3] pdC3 1).map (fun r => r.aiTags) = [[]]
    ∧ (upsert_property [rowC3] pdC3 1).map (fun r => r.dealRating) =
        [some 80] := by
  refine ⟨rfl, rfl, ?_, ?_, ?_⟩ <;> decide

open DBClient in
/-- Claim C10: the dict `upsert_property` sends to the store never maps a key
to None (the comprehension filters every None value out); consequently a
scrape-path upsert can never turn a stored non-null field into NULL — every
nullable field of the merged row stays present when it was present — though
the list-valued `aiTags` and `features` are still overwritten with their `[]`
defaults when the caller supplies none. -/
theorem C10_payload_none_free :
    ∀ (pd : DBClient.UpsertInput) (now : ℚ) (r : DBClient.PropertyRow),
      (∀ k v, (k, v) ∈ payload pd now → v ≠ Val.vnone)
      ∧ (r.description.isSome →
          (applyPayload r (mkPayload pd now)).description.isSome)
      ∧ (r.city.isSome → (applyPayload r (mkPayload pd now)).city.isSome)
      ∧ (r.region.isSome → (applyPayload r (mkPayload pd now)).region.isSome)
      ∧ (r.propertyType.isSome →
          (applyPayload r (mkPayload pd now)).propertyType.isSome)
      ∧ (r.latitude.isSome →
          (applyPayload r (mkPayload pd now)).latitude.isSome)
      ∧ (r.longitude.isSome →
          (applyPayload r (mkPayload pd now)).longitude.isSome)
      ∧ (r.surfaceArea.isSome →
          (applyPayload r (mkPayload pd now)).surfaceArea.isSome)
      ∧ (r.rooms.isSome → (applyPayload r (mkPayload pd now)).rooms.isSome)
      ∧ (r.bathrooms.isSome →
          (applyPayload r (mkPayload pd now)).bathrooms.isSome)
      ∧ (r.pricePerSqm.isSome →
          (applyPayload r (mkPayload pd now)).pricePerSqm.isSome)
      ∧ (r.renovationScore.isSome →
          (applyPayload r (mkPayload pd now)).renovationScore.isSome)
      ∧ (r.dealRating.isSome →
          (applyPayload r (mkPayload pd now)).dealRating.isSome)
      ∧ (r.descriptionEmbedding.isSome →
          (applyPayload r (mkPayload pd now)).descriptionEmbedding.isSome)
      ∧ (pd.aiTags = none → (applyPayload r (mkPayload pd now)).aiTags = [])
      ∧ (pd.features = none →
          (applyPayload r (mkPayload pd now)).features = []) := by
  intro pd now r
  refine ⟨?_, fun h => upd_isSome _ _ h, fun h => upd_isSome _ _ h,
    fun h => upd_isSome _ _ h, fun h => upd_isSome _ _ h,
    fun h => upd_isSome _ _ h, fun h => upd_isSome _ _ h,
    fun h => upd_isSome _ _ h, fun h => upd_isSome _ _ h,
    fun h => upd_isSome _ _ h, fun h => upd_isSome _ _ h,
    fun h => upd_isSome _ _ h, fun h => upd_isSome _ _ h,
    fun h => upd_isSome _ _ h, ?_, ?_⟩
  · intro k v hm hveq
    subst hveq
    have hv := (List.mem_filter.mp hm).2
    simp [notNone] at hv
  · intro h
    simp [applyPayload, mkPayload, h]
  · intro h
    simp [applyPayload, mkPayload, h]

open Aggregator in
/-- Claim C8, counterexample: a locality with two properties, one of which has
surfaceArea 0, yields a stats row with totalListings = 1: the SQL
`WHERE surface_area > 0` removes the zero-surface property from the whole
aggregation, including the totalListings count the claim says it should still
appear in (the locality has 2 properties). The average is computed over the
one remaining property (100 / 50 = 2). -/
theorem C8_counterexample :
    psC8.length = 2
    ∧ (psC8.filter (fun p => aggKey p = (some "Tunis", some "Lac"))).length = 2
    ∧ (computeStats psC8 0).map (fun r => r.totalListings) = [1]
    ∧ (computeStats psC8 0).map (fun r => r.avgPricePerSqm) = [some 2] := by
  refine ⟨rfl, by decide, by decide, ?_⟩
  show [(statsFor psC8 0 (some "Tunis", some "Lac")).avgPricePerSqm] = [some 2]
  simp only [statsFor, avgQ]
  norm_num [aggFiltered, aggIncluded, aggKey, psC8, ratioTerm, List.filter,
    List.filterMap]

open Aggregator in
/-- Claim C8, amended: the Aggregator excludes properties with non-positive or
missing surfaceArea (and those with a missing city) from the aggregation
entirely — they are absent from the avgPricePerArea denominator and also from
totalListings: the computed statistics depend only on the filtered rows, and
each row's totalListings counts exactly the filtered properties of its
locality. -/
theorem C8_amended :
    ∀ (ps : List AggProp) (now : ℚ),
      computeStats ps now = computeStats (aggFiltered ps) now
      ∧ (∀ r, r ∈ computeStats ps now →
          r.totalListings = ((aggFiltered ps).filter
            (fun p => aggKey p = (r.city, r.region))).length) := by
  intro ps now
  constructor
  · simp [computeStats, localKeys, statsFor, aggFiltered_idem]
  · intro r hr
    rcases List.mem_map.mp hr with ⟨k, hk, rfl⟩
    simp [statsFor]

open Aggregator in
/-- Claim C9, counterexample: with a pre-existing stats row for a third
locality (Sousse) and a snapshot holding exactly two localities, the claim
says a run leaves exactly two rows; the code's INSERT ... ON CONFLICT never
deletes, so three rows remain and the stale Sousse row survives unchanged. -/
theorem C9_counterexample :
    (localKeys psC9).length = 2
    ∧ (update_neighborhood_stats [staleC9] psC9 1).length = 3
    ∧ staleC9 ∈ update_neighborhood_stats [staleC9] psC9 1 := by
  refine ⟨by decide, by decide, by decide⟩

open Aggregator in
/-- A row carrying the upserted key, other than the upserted row itself, is
not in the upserted table: the `ON CONFLICT` hit rewrites every matching row. -/
theorem not_mem_upsertStatsRow_conflict (table : List StatsRow)
    (c r : StatsRow) (hkey : statsKey r = statsKey c) (hne : r ≠ c) :
    r ∉ upsertStatsRow table c := by
  unfold upsertStatsRow
  split
  · intro hr
    rcases List.mem_map.mp hr with ⟨x, hx, hxr⟩
    by_cases h : statsKey x = statsKey c
    · rw [if_pos h] at hxr
      exact hne hxr.symm
    · rw [if_neg h] at hxr
      exact h (by rw [hxr]; exact hkey)
  · next h =>
    intro hr
    rcases List.mem_append.mp hr with h2 | h2
    · exact absurd (List.any_eq_true.mpr ⟨r, h2, by simp [hkey]⟩) h
    · exact hne (List.mem_singleton.mp h2)

open Aggregator in
/-- A row absent from the table and different from the upserted row stays
absent after the upsert. -/
theorem not_mem_upsertStatsRow (table : List StatsRow) (c r : StatsRow)
    (hr : r ∉ table) (hne : r ≠ c) : r ∉ upsertStatsRow table c := by
  intro hmem
  rcases mem_upsertStatsRow_cases table c r hmem with h | h
  · exact hr h
  · exact hne h

open Aggregator in
/-- A row absent from the table and different from every upserted row is
absent from the folded table. -/
theorem foldl_upsert_not_mem (rows : List StatsRow) :
    ∀ (table : List StatsRow) (r : StatsRow), r ∉ table →
      (∀ c ∈ rows, r ≠ c) → r ∉ rows.foldl upsertStatsRow table := by
  induction rows with
  | nil =>
    intro table r hr _
    exact hr
  | cons d ds ih =>
    intro table r hr hall
    exact ih _ r
      (not_mem_upsertStatsRow _ _ _ hr (hall d (List.mem_cons_self d ds)))
      (fun c hc => hall c (List.mem_cons_of_mem d hc))

open Aggregator in
/-- When the upserted rows have pairwise distinct keys, an old row carrying
one of those keys, other than that key's upserted row, is not in the folded
table: it was replaced. -/
theorem foldl_upsert_replaced (rows : List StatsRow) :
    ∀ (table : List StatsRow) (r c0 : StatsRow), c0 ∈ rows →
      (rows.map statsKey).Nodup → statsKey c0 = statsKey r → r ≠ c0 →
      r ∉ rows.foldl upsertStatsRow table := by
  induction rows with
  | nil =>
    intro table r c0 hc0 _ _ _
    cases hc0
  | cons d ds ih =>
    intro table r c0 hc0 hnd hkey hne
    rw [List.map_cons] at hnd
    rcases List.mem_cons.mp hc0 with rfl | hc2
    · apply foldl_upsert_not_mem ds _ r
        (not_mem_upsertStatsRow_conflict table c0 r hkey.symm hne)
      intro c2 hc2m heq
      exact (List.nodup_cons.mp hnd).1
        (by rw [hkey, heq]; exact List.mem_map_of_mem statsKey hc2m)
    · exact ih _ r c0 hc2 (List.nodup_cons.mp hnd).2 hkey hne

open Aggregator in
/-- Claim C9, amended: after a run, rows for the computed locality keys are
fully replaced with the freshly computed values — a pre-existing row carrying
a computed key, other than that key's computed row, is no longer in the table
while the computed row is — but rows for localities no longer represented are
NOT removed (nor zeroed): every stale row whose key is not among the computed
keys survives unchanged, and nothing else appears, so the resulting table is
the computed rows plus the surviving pre-existing rows. -/
theorem C9_amended :
    ∀ (existing : List StatsRow) (ps : List AggProp) (now : ℚ),
      (∀ r, r ∈ existing →
        (∀ c, c ∈ computeStats ps now → statsKey c ≠ statsKey r) →
        r ∈ update_neighborhood_stats existing ps now)
      ∧ (∀ c, c ∈ computeStats ps now →
          c ∈ update_neighborhood_stats existing ps now)
      ∧ (∀ r, r ∈ existing → ∀ c, c ∈ computeStats ps now →
          statsKey c = statsKey r → r ≠ c →
          r ∉ update_neighborhood_stats existing ps now)
      ∧ (∀ x, x ∈ update_neighborhood_stats existing ps now →
          x ∈ existing ∨ x ∈ computeStats ps now) := by
  intro existing ps now
  refine ⟨?_, ?_, ?_, ?_⟩
  · intro r hr hall
    exact foldl_upsert_preserve _ _ _ hr (fun c hc => (hall c hc).symm)
  · intro c hc
    exact foldl_upsert_mem _ _ _ hc (computeStats_keys_nodup ps now)
  · intro r _hr c hc hkey hne
    exact foldl_upsert_replaced _ _ r c hc (computeStats_keys_nodup ps now)
      hkey hne
  · intro x hx
    exact foldl_upsert_cases _ _ _ hx
